import Mathlib

/-!
Verification of `donkeypart_bluetooth_game_controller/part.py`.

The Python module translates raw HID events from a bluetooth game
controller into a control state (angle, throttle, drive mode, recording
flag, throttle scale).  We embed the relevant functions shallowly:

* numeric values become `ℚ` (Python floats; all arithmetic in the claims
  is exact in the rationals),
* the `self.state` dictionary becomes an association list over keys
  `Option String` (the button may be `None`) and values `Option ℚ`
  (the reconnection path stores `None`),
* the `itertools.cycle` iterators for `drive_mode` and `recording`
  become a list plus a counter of how many `next` calls were made,
* device lookup (`find_input_device`) is modelled over an explicit list
  of devices with string names.
-/

namespace BTGC

/-- A key of the `self.state` dictionary: the logical button name, or
`none` when the raw code has no entry in the button map (Python `None`). -/
abbrev Key := Option String

/-- A value of the `self.state` dictionary: the translated value, or
`none` on the reconnection path (Python `None`). -/
abbrev Val := Option ℚ

/-- Python dictionary assignment `d[k] = v` on an association list:
replace the entry for `k` if present, else append it. -/
def dictSet (m : List (Key × Val)) (k : Key) (v : Val) : List (Key × Val) :=
  if m.any (fun p => decide (p.1 = k)) then
    m.map (fun p => if p.1 = k then (k, v) else p)
  else
    m ++ [(k, v)]

/-- Python dictionary lookup `d.get(k)` on an association list. -/
def dictGet (m : List (Key × Val)) (k : Key) : Option Val :=
  (m.find? (fun p => decide (p.1 = k))).map (fun p => p.2)

/-- Python `self.throttle_scale_increment = .05` in `__init__`. -/
def throttle_scale_increment : ℚ := 5 / 100

/-- Python `self.y_axis_direction = -1` in `__init__`
(pushing the stick forward gives negative values). -/
def y_axis_direction : ℚ := -1

/-- Python `cycle(['user', 'local_angle', 'local'])`: the underlying list of the
drive-mode cycle. -/
def drive_mode_cycle : List String := ["user", "local_angle", "local"]

/-- Python `cycle([True, False])`: the underlying list of the recording cycle. -/
def recording_cycle : List Bool := [true, false]

/-- The value produced by the `n`-th call (0-based) of `next` on
`itertools.cycle(l)`: the element at index `n` modulo the length. -/
def cycleNext {α : Type} (l : List α) (d : α) (n : ℕ) : α :=
  l.getD (n % l.length) d

/-- The mutable fields of `BluetoothGameController` that the control
path touches.  `drive_mode_pos` / `recording_pos` count how many `next`
calls have been made on the corresponding `itertools.cycle` iterator. -/
structure ControlState where
  state : List (Key × Val)
  angle : ℚ
  throttle : ℚ
  throttle_scale : ℚ
  drive_mode : String
  drive_mode_pos : ℕ
  recording : Bool
  recording_pos : ℕ
  deriving DecidableEq, Repr

/-- The state set up by `BluetoothGameController.__init__`:
`state = {}`, `angle = 0.0`, `throttle = 0.0`, `throttle_scale = 1.0`,
`drive_mode = next(cycle(['user','local_angle','local']))`,
`recording = next(cycle([True, False]))`. -/
def init_state : ControlState :=
  { state := []
    angle := 0
    throttle := 0
    throttle_scale := 1
    drive_mode := cycleNext drive_mode_cycle "" 0
    drive_mode_pos := 1
    recording := cycleNext recording_cycle true 0
    recording_pos := 1 }

/-- Python `update_angle`: `self.angle = val`. -/
def update_angle (val : ℚ) (s : ControlState) : ControlState :=
  { s with angle := val }

/-- Python `update_throttle`:
`self.throttle = val * self.throttle_scale * self.y_axis_direction`. -/
def update_throttle (val : ℚ) (s : ControlState) : ControlState :=
  { s with throttle := val * s.throttle_scale * y_axis_direction }

/-- Python `toggle_recording`: on `val == 1`,
`self.recording = next(self.recording_toggle)`. -/
def toggle_recording (val : ℚ) (s : ControlState) : ControlState :=
  if val = 1 then
    { s with recording := cycleNext recording_cycle true s.recording_pos
             recording_pos := s.recording_pos + 1 }
  else s

/-- Python `toggle_drive_mode`: on `val == 1`,
`self.drive_mode = next(self.drive_mode_toggle)`. -/
def toggle_drive_mode (val : ℚ) (s : ControlState) : ControlState :=
  if val = 1 then
    { s with drive_mode := cycleNext drive_mode_cycle "" s.drive_mode_pos
             drive_mode_pos := s.drive_mode_pos + 1 }
  else s

/-- Python `increment_throttle_scale`: on `val == 1`,
`self.throttle_scale += self.throttle_scale_increment`. -/
def increment_throttle_scale (val : ℚ) (s : ControlState) : ControlState :=
  if val = 1 then
    { s with throttle_scale := s.throttle_scale + throttle_scale_increment }
  else s

/-- Python `decrement_throttle_scale`: on `val == 1`,
`self.throttle_scale -= self.throttle_scale_increment`. -/
def decrement_throttle_scale (val : ℚ) (s : ControlState) : ControlState :=
  if val = 1 then
    { s with throttle_scale := s.throttle_scale - throttle_scale_increment }
  else s

/-- Python `self.func_map` dispatch: `func = self.func_map.get(btn)` followed by
`func(val)` when `func is not None`; an unmapped button name is a no-op. -/
def func_map (btn : String) (val : ℚ) (s : ControlState) : ControlState :=
  if btn = "LEFT_STICK_X" then update_angle val s
  else if btn = "LEFT_STICK_Y" then update_throttle val s
  else if btn = "B" then toggle_recording val s
  else if btn = "A" then toggle_drive_mode val s
  else if btn = "PAD_UP" then increment_throttle_scale val s
  else if btn = "PAD_DOWN" then decrement_throttle_scale val s
  else s

/-- A raw evdev event: `(event.type, event.code, event.value)`. -/
structure RawEvent where
  type : ℕ
  code : ℕ
  value : ℤ
  deriving DecidableEq, Repr

/-- Constant `ecodes.EV_ABS` (Linux input event type for absolute axes). -/
def EV_ABS : ℕ := 3

/-- The translation step of `read_loop` on a successfully read event:
`btn = self.btn_map.get(event.code)`, `val = event.value`, and for
`event.type == ecodes.EV_ABS`,
`val = val / float(self.joystick_max_value)`. -/
def translate (btn_map : List (ℕ × String)) (joystick_max_value : ℚ)
    (e : RawEvent) : Option String × ℚ :=
  let btn := (btn_map.find? (fun p => decide (p.1 = e.code))).map (fun p => p.2)
  let val : ℚ :=
    if e.type = EV_ABS then (e.value : ℚ) / joystick_max_value
    else (e.value : ℚ)
  (btn, val)

/-- The result of `read_loop`: `some (btn, val)` for a successful read,
`none` for the `OSError` path, which reconnects and returns
`(None, None)` instead of propagating the exception. -/
abbrev ReadResult := Option (Option String × ℚ)

/-- Python `update_state_from_loop` applied to the pair returned by
`read_loop`: `self.state[btn] = val`, then dispatch through
`self.func_map` (`func_map.get(None)` is `None`, so the `None` button
runs no handler). -/
def update_state_from_loop (r : ReadResult) (s : ControlState) :
    ControlState :=
  match r with
  | none => { s with state := dictSet s.state none none }
  | some (btn, val) =>
      let s1 := { s with state := dictSet s.state btn (some val) }
      match btn with
      | none => s1
      | some b => func_map b val s1

/-- Deliver a list of successfully read logical events in order. -/
def applyEvents (evs : List (Option String × ℚ)) (s : ControlState) :
    ControlState :=
  match evs with
  | [] => s
  | e :: rest => applyEvents rest (update_state_from_loop (some e) s)

/-! ### Device lookup (`find_input_device`) -/

/-- An input device as seen by `find_input_device`: only its
human-readable name matters. -/
structure Device where
  name : String
  deriving DecidableEq, Repr

/-- Python `needle in haystack` on lists of characters: `needle` occurs
as a contiguous substring of `haystack`. -/
def strContains (haystack needle : List Char) : Bool :=
  needle.isPrefixOf haystack ||
    match haystack with
    | [] => false
    | _ :: t => strContains t needle

/-- Python `str.lower()`, character by character (ASCII case folding). -/
def lowerStr (l : List Char) : List Char :=
  l.map Char.toLower

/-- Python `search_term.lower() in device.name.lower()`. -/
def nameMatches (search_term : String) (d : Device) : Bool :=
  strContains (lowerStr d.name.data) (lowerStr search_term.data)

/-- Result of `find_input_device`: one match is returned, two or more
raise `ValueError`, zero fall through and return `None`. -/
inductive FindResult where
  | found (d : Device)
  | ambiguityError
  | notFound
  deriving DecidableEq, Repr

/-- Python `find_input_device`: filter the devices whose name contains the
search term case-insensitively; return the single match, raise on two
or more, return `None` on zero. -/
def find_input_device (devices : List Device) (search_term : String) :
    FindResult :=
  let likely_devices := devices.filter (nameMatches search_term)
  match likely_devices with
  | [d] => .found d
  | [] => .notFound
  | _ => .ambiguityError

/-! ## Helper lemmas -/

theorem applyEvents_append (l1 l2 : List (Option String × ℚ)) (s : ControlState) :
    applyEvents (l1 ++ l2) s = applyEvents l2 (applyEvents l1 s) := by
  induction l1 generalizing s with
  | nil => rfl
  | cons e t ih => simp [applyEvents, ih]

theorem applyEvents_singleton (e : Option String × ℚ) (s : ControlState) :
    applyEvents [e] s = update_state_from_loop (some e) s := rfl

theorem stepA_drive_mode (s : ControlState) :
    (update_state_from_loop (some ((some "A"), (1:ℚ))) s).drive_mode
      = cycleNext drive_mode_cycle "" s.drive_mode_pos := rfl

theorem stepA_pos (s : ControlState) :
    (update_state_from_loop (some ((some "A"), (1:ℚ))) s).drive_mode_pos
      = s.drive_mode_pos + 1 := rfl

theorem applyA_spec (n : ℕ) :
    (applyEvents (List.replicate n ((some "A"), (1:ℚ))) init_state).drive_mode_pos = n + 1 ∧
    (applyEvents (List.replicate n ((some "A"), (1:ℚ))) init_state).drive_mode
      = cycleNext drive_mode_cycle "" n := by
  induction n with
  | zero => exact ⟨rfl, rfl⟩
  | succ n ih =>
      rw [List.replicate_succ', applyEvents_append, applyEvents_singleton]
      rw [stepA_pos, stepA_drive_mode, ih.1]
      exact ⟨rfl, rfl⟩

theorem stepB_recording (s : ControlState) :
    (update_state_from_loop (some ((some "B"), (1:ℚ))) s).recording
      = cycleNext recording_cycle true s.recording_pos := rfl

theorem stepB_pos (s : ControlState) :
    (update_state_from_loop (some ((some "B"), (1:ℚ))) s).recording_pos
      = s.recording_pos + 1 := rfl

theorem applyB_spec (n : ℕ) :
    (applyEvents (List.replicate n ((some "B"), (1:ℚ))) init_state).recording_pos = n + 1 ∧
    (applyEvents (List.replicate n ((some "B"), (1:ℚ))) init_state).recording
      = cycleNext recording_cycle true n := by
  induction n with
  | zero => exact ⟨rfl, rfl⟩
  | succ n ih =>
      rw [List.replicate_succ', applyEvents_append, applyEvents_singleton]
      rw [stepB_pos, stepB_recording, ih.1]
      exact ⟨rfl, rfl⟩

theorem stepUp_scale (s : ControlState) :
    (update_state_from_loop (some ((some "PAD_UP"), (1:ℚ))) s).throttle_scale
      = s.throttle_scale + throttle_scale_increment := rfl

theorem stepDown_scale (s : ControlState) :
    (update_state_from_loop (some ((some "PAD_DOWN"), (1:ℚ))) s).throttle_scale
      = s.throttle_scale - throttle_scale_increment := rfl

theorem applyUp_scale (n : ℕ) :
    (applyEvents (List.replicate n ((some "PAD_UP"), (1:ℚ))) init_state).throttle_scale
      = 1 + n * (5/100) := by
  induction n with
  | zero => norm_num [applyEvents, init_state]
  | succ n ih =>
      rw [List.replicate_succ', applyEvents_append, applyEvents_singleton, stepUp_scale, ih]
      unfold throttle_scale_increment
      push_cast
      ring

theorem applyDown_scale (n : ℕ) :
    (applyEvents (List.replicate n ((some "PAD_DOWN"), (1:ℚ))) init_state).throttle_scale
      = 1 - n * (5/100) := by
  induction n with
  | zero => norm_num [applyEvents, init_state]
  | succ n ih =>
      rw [List.replicate_succ', applyEvents_append, applyEvents_singleton, stepDown_scale, ih]
      unfold throttle_scale_increment
      push_cast
      ring

theorem find?_map_replace (m : List (Key × Val)) (k k' : Key) (v : Val) (h : k' ≠ k) :
    (m.map (fun p => if p.1 = k then (k, v) else p)).find? (fun p => decide (p.1 = k'))
      = m.find? (fun p => decide (p.1 = k')) := by
  induction m with
  | nil => rfl
  | cons p t ih =>
      simp only [List.map_cons]
      by_cases hp : p.1 = k
      · rw [if_pos hp]
        rw [List.find?_cons_of_neg _ (by simp [Ne.symm h]),
            List.find?_cons_of_neg _ (by simp [hp, Ne.symm h])]
        exact ih
      · rw [if_neg hp]
        by_cases hq : p.1 = k'
        · rw [List.find?_cons_of_pos _ (by simp [hq]), List.find?_cons_of_pos _ (by simp [hq])]
        · rw [List.find?_cons_of_neg _ (by simp [hq]), List.find?_cons_of_neg _ (by simp [hq])]
          exact ih

theorem find?_append_new (m : List (Key × Val)) (k k' : Key) (v : Val) (h : k' ≠ k) :
    (m ++ [(k, v)]).find? (fun p => decide (p.1 = k'))
      = m.find? (fun p => decide (p.1 = k')) := by
  induction m with
  | nil =>
      simp only [List.nil_append]
      rw [List.find?_cons_of_neg _ (by simp [Ne.symm h])]
  | cons p t ih =>
      simp only [List.cons_append]
      by_cases hq : p.1 = k'
      · rw [List.find?_cons_of_pos _ (by simp [hq]), List.find?_cons_of_pos _ (by simp [hq])]
      · rw [List.find?_cons_of_neg _ (by simp [hq]), List.find?_cons_of_neg _ (by simp [hq])]
        exact ih

theorem dictGet_dictSet_ne (m : List (Key × Val)) (k k' : Key) (v : Val) (h : k' ≠ k) :
    dictGet (dictSet m k v) k' = dictGet m k' := by
  unfold dictSet dictGet
  split
  · rw [find?_map_replace m k k' v h]
  · rw [find?_append_new m k k' v h]

theorem step_ne_one (e : Option String × ℚ) (s : ControlState) (h : e.2 ≠ 1) :
    (update_state_from_loop (some e) s).drive_mode = s.drive_mode ∧
    (update_state_from_loop (some e) s).recording = s.recording := by
  obtain ⟨b, v⟩ := e
  have hv : v ≠ 1 := h
  match b with
  | none => exact ⟨rfl, rfl⟩
  | some bs =>
      simp only [update_state_from_loop, func_map]
      split_ifs <;>
        simp [update_angle, update_throttle, toggle_recording, toggle_drive_mode,
              increment_throttle_scale, decrement_throttle_scale, hv]

/-! ## Claim theorems -/

/-- C1 (counterexample): the claim "applying an event whose logical button
is nil leaves the `raw_button_values` mapping unchanged" is false: the code
runs `self.state[btn] = val` unconditionally, so a nil-button event with
value 1 applied to the initial state inserts the entry `None ↦ 1` into the
previously empty dictionary. -/
theorem nil_button_event_changes_state_dict :
    (update_state_from_loop (some (none, (1:ℚ))) init_state).state
      ≠ init_state.state := by decide

/-- C1 (amended): applying an event whose logical button is nil records the
value under the nil key — `raw_button_values` becomes
`dictSet raw_button_values none (some v)` — while the entry of every
non-nil button and all other control fields (angle, throttle,
throttle_scale, drive_mode, recording) are unchanged. -/
theorem nil_button_event_records_under_nil_key (s : ControlState) (v : ℚ) :
    (update_state_from_loop (some (none, v)) s).state
        = dictSet s.state none (some v) ∧
    (∀ b : String,
      dictGet (update_state_from_loop (some (none, v)) s).state (some b)
        = dictGet s.state (some b)) ∧
    (update_state_from_loop (some (none, v)) s).angle = s.angle ∧
    (update_state_from_loop (some (none, v)) s).throttle = s.throttle ∧
    (update_state_from_loop (some (none, v)) s).throttle_scale = s.throttle_scale ∧
    (update_state_from_loop (some (none, v)) s).drive_mode = s.drive_mode ∧
    (update_state_from_loop (some (none, v)) s).recording = s.recording := by
  refine ⟨rfl, ?_, rfl, rfl, rfl, rfl, rfl⟩
  intro b
  exact dictGet_dictSet_ne s.state none (some b) (some v) (by simp)

/-- C2: translating a raw event of axis type (`EV_ABS`) with integer value
`v` and configured maximum `M` yields exactly `v / M` (in particular
`v = 640`, `M = 1280` gives `1/2`), and translating a raw event of any
non-axis type passes the value through unscaled. -/
theorem translate_scales_axis_values (bm : List (ℕ × String)) (M : ℚ)
    (c : ℕ) (v : ℤ) (t : ℕ) (h : t ≠ EV_ABS) :
    (translate bm M ⟨EV_ABS, c, v⟩).2 = (v : ℚ) / M ∧
    (translate bm M ⟨t, c, v⟩).2 = (v : ℚ) ∧
    (translate bm 1280 ⟨EV_ABS, c, 640⟩).2 = 1/2 := by
  refine ⟨rfl, ?_, ?_⟩
  · simp [translate, h]
  · show ((640:ℤ):ℚ) / 1280 = 1/2
    norm_num

/-- C2 (witness): the axis and non-axis parts of
`translate_scales_axis_values` at concrete inputs. -/
theorem translate_scales_axis_values_witness :
    (translate [] 1280 ⟨EV_ABS, 0, (640:ℤ)⟩).2 = ((640:ℤ) : ℚ) / 1280 ∧
    (translate [] 1280 ⟨1, 0, (640:ℤ)⟩).2 = ((640:ℤ) : ℚ) ∧
    (translate [] 1280 ⟨EV_ABS, 0, 640⟩).2 = 1/2 :=
  translate_scales_axis_values [] 1280 0 640 1 (by decide)

/-- C3: a Y-axis (`LEFT_STICK_Y`) event with translated value `v` applied
to a state with throttle scale `s.throttle_scale` sets
`throttle = v * throttle_scale * (-1)`; in particular `v = 1/2` with the
initial throttle scale `1` yields `throttle = -(1/2)`. -/
theorem throttle_sign_flip (s : ControlState) (v : ℚ) :
    (update_state_from_loop (some ((some "LEFT_STICK_Y"), v)) s).throttle
        = v * s.throttle_scale * (-1) ∧
    (update_state_from_loop (some ((some "LEFT_STICK_Y"), (1:ℚ)/2))
        init_state).throttle = -(1/2) := by
  constructor
  · rfl
  · show (1:ℚ)/2 * 1 * (-1) = -(1/2)
    norm_num

/-- C9: the `OSError` branch of `read_loop` does not propagate the failure
(it returns the pair `(None, None)` instead), and the subsequent
`update_state_from_loop` on that pair leaves angle, throttle, drive_mode,
recording and throttle_scale unchanged: the control state is continuous
across the reconnection. -/
theorem connection_lost_preserves_control_state (s : ControlState) :
    (update_state_from_loop none s).angle = s.angle ∧
    (update_state_from_loop none s).throttle = s.throttle ∧
    (update_state_from_loop none s).drive_mode = s.drive_mode ∧
    (update_state_from_loop none s).recording = s.recording ∧
    (update_state_from_loop none s).throttle_scale = s.throttle_scale :=
  ⟨rfl, rfl, rfl, rfl, rfl⟩

/-- C10: `__init__` sets angle = 0, throttle = 0, drive_mode = "user"
(the first element of the fixed 3-cycle user, local_angle, local),
recording = true (the first element of the 2-cycle true, false), and
throttle_scale = 1. -/
theorem init_state_spec :
    init_state.angle = 0 ∧
    init_state.throttle = 0 ∧
    init_state.drive_mode = "user" ∧
    init_state.drive_mode = drive_mode_cycle.getD 0 "" ∧
    drive_mode_cycle = ["user", "local_angle", "local"] ∧
    init_state.recording = true ∧
    init_state.recording = recording_cycle.getD 0 false ∧
    recording_cycle = [true, false] ∧
    init_state.throttle_scale = 1 := by decide

/-- C4: delivering the drive-mode-toggle button ("A") with value 1 exactly
`n` times from the initial state advances `drive_mode` one step per event
through the cycle user → local_angle → local → user (the element at index
`n % 3` of the cycle list), so the resulting drive mode has period 3 in
`n`; in particular each further value-1 event (for example a repeat of a
held button) advances one more step. -/
theorem drive_mode_cycles_with_period_three (n : ℕ) :
    (applyEvents (List.replicate n ((some "A"), (1:ℚ))) init_state).drive_mode
        = drive_mode_cycle.getD (n % 3) "" ∧
    (applyEvents (List.replicate (n + 1) ((some "A"), (1:ℚ))) init_state).drive_mode
        = drive_mode_cycle.getD ((n + 1) % 3) "" ∧
    (applyEvents (List.replicate (n + 3) ((some "A"), (1:ℚ))) init_state).drive_mode
        = (applyEvents (List.replicate n ((some "A"), (1:ℚ))) init_state).drive_mode := by
  have h3 : drive_mode_cycle.length = 3 := rfl
  refine ⟨(applyA_spec n).2, (applyA_spec (n + 1)).2, ?_⟩
  rw [(applyA_spec (n + 3)).2, (applyA_spec n).2]
  unfold cycleNext
  rw [h3, Nat.add_mod_right]

/-- C5: delivering the recording-toggle button ("B") with value 1 exactly
`n` times from the initial state flips `recording` once per event through
the 2-cycle true, false (the element at index `n % 2` of the cycle list),
and after any even number `2 * k` of events `recording` equals its
initial value. -/
theorem recording_flips_with_period_two (n : ℕ) :
    (applyEvents (List.replicate n ((some "B"), (1:ℚ))) init_state).recording
        = recording_cycle.getD (n % 2) true ∧
    (applyEvents (List.replicate (n + 2) ((some "B"), (1:ℚ))) init_state).recording
        = (applyEvents (List.replicate n ((some "B"), (1:ℚ))) init_state).recording ∧
    (∀ k : ℕ,
      (applyEvents (List.replicate (2 * k) ((some "B"), (1:ℚ))) init_state).recording
        = init_state.recording) := by
  have h2 : recording_cycle.length = 2 := rfl
  refine ⟨(applyB_spec n).2, ?_, ?_⟩
  · rw [(applyB_spec (n + 2)).2, (applyB_spec n).2]
    unfold cycleNext
    rw [h2, Nat.add_mod_right]
  · intro k
    rw [(applyB_spec (2 * k)).2]
    unfold cycleNext
    rw [h2, Nat.mul_mod_right]
    rfl

/-- C6: applying any sequence of logical button events in which no event
has value 1 leaves `drive_mode` and `recording` equal to their values
before the sequence. -/
theorem toggles_unchanged_without_value_one
    (evs : List (Option String × ℚ)) (s : ControlState)
    (h : ∀ e ∈ evs, e.2 ≠ 1) :
    (applyEvents evs s).drive_mode = s.drive_mode ∧
    (applyEvents evs s).recording = s.recording := by
  induction evs generalizing s with
  | nil => exact ⟨rfl, rfl⟩
  | cons e t ih =>
      have he : e.2 ≠ 1 := h e (List.mem_cons_self e t)
      have ht : ∀ x ∈ t, x.2 ≠ 1 := fun x hx => h x (List.mem_cons_of_mem e hx)
      have hstep := step_ne_one e s he
      have hrest := ih (update_state_from_loop (some e) s) ht
      exact ⟨hrest.1.trans hstep.1, hrest.2.trans hstep.2⟩

/-- C6 (witness): a concrete sequence with no value-1 event — an "A" press
with value 0, a "B" repeat with value 2, a half-deflection of the Y axis
and an unmapped (nil-button) event — leaves `drive_mode` and `recording`
at their initial values. -/
theorem toggles_unchanged_without_value_one_witness :
    (applyEvents [((some "A"), (0:ℚ)), ((some "B"), 2),
        ((some "LEFT_STICK_Y"), 1/2), (none, 5)] init_state).drive_mode
      = init_state.drive_mode ∧
    (applyEvents [((some "A"), (0:ℚ)), ((some "B"), 2),
        ((some "LEFT_STICK_Y"), 1/2), (none, 5)] init_state).recording
      = init_state.recording :=
  toggles_unchanged_without_value_one _ init_state (by
    intro e he
    simp only [List.mem_cons, List.not_mem_nil, or_false] at he
    rcases he with h | h | h | h <;> subst h <;> norm_num)

/-- C7: a "PAD_UP" event with value 1 adds exactly 5/100 to
`throttle_scale` and a "PAD_DOWN" event with value 1 subtracts exactly
5/100; four increments from the initial scale 1 yield exactly 6/5, and
there is no lower bound: 21 decrements from the initial state drive
`throttle_scale` negative. -/
theorem throttle_scale_steps_by_five_hundredths (s : ControlState) :
    (update_state_from_loop (some ((some "PAD_UP"), (1:ℚ))) s).throttle_scale
        = s.throttle_scale + 5/100 ∧
    (update_state_from_loop (some ((some "PAD_DOWN"), (1:ℚ))) s).throttle_scale
        = s.throttle_scale - 5/100 ∧
    (applyEvents (List.replicate 4 ((some "PAD_UP"), (1:ℚ)))
        init_state).throttle_scale = 6/5 ∧
    (applyEvents (List.replicate 21 ((some "PAD_DOWN"), (1:ℚ)))
        init_state).throttle_scale < 0 := by
  refine ⟨rfl, rfl, ?_, ?_⟩
  · rw [applyUp_scale 4]
    norm_num
  · rw [applyDown_scale 21]
    norm_num

/-- C8: `find_input_device` returns the unique device whose name contains
the search term case-insensitively when exactly one device matches,
returns the not-found result (Python `None`) when zero devices match, and
raises (`ValueError`, modelled as the ambiguity result — never resolved by
picking one device) when two or more match. -/
theorem find_input_device_cases (devices : List Device) (search_term : String) :
    (devices.filter (nameMatches search_term) = [] →
      find_input_device devices search_term = .notFound) ∧
    (∀ d : Device, devices.filter (nameMatches search_term) = [d] →
      find_input_device devices search_term = .found d) ∧
    (2 ≤ (devices.filter (nameMatches search_term)).length →
      find_input_device devices search_term = .ambiguityError) := by
  refine ⟨?_, ?_, ?_⟩
  · intro h
    unfold find_input_device
    rw [h]
  · intro d h
    unfold find_input_device
    rw [h]
  · intro h
    unfold find_input_device
    match hm : devices.filter (nameMatches search_term) with
    | [] => rw [hm] at h; simp at h
    | [d] => rw [hm] at h; simp at h
    | d1 :: d2 :: rest => rfl

/-- C8 (witness): `find_input_device_cases` at concrete device lists — a
unique case-insensitive match is returned, no match gives the not-found
result, and two matches give the ambiguity result. -/
theorem find_input_device_cases_witness :
    find_input_device [⟨"Nintendo Wii Remote"⟩, ⟨"AT keyboard"⟩] "nintendo"
        = .found ⟨"Nintendo Wii Remote"⟩ ∧
    find_input_device [⟨"Nintendo Wii Remote"⟩, ⟨"AT keyboard"⟩] "xbox"
        = .notFound ∧
    find_input_device [⟨"Nintendo Wii Remote"⟩, ⟨"Nintendo Switch Pro"⟩] "nintendo"
        = .ambiguityError :=
  ⟨(find_input_device_cases [⟨"Nintendo Wii Remote"⟩, ⟨"AT keyboard"⟩]
      "nintendo").2.1 ⟨"Nintendo Wii Remote"⟩ (by decide),
   (find_input_device_cases [⟨"Nintendo Wii Remote"⟩, ⟨"AT keyboard"⟩]
      "xbox").1 (by decide),
   (find_input_device_cases [⟨"Nintendo Wii Remote"⟩, ⟨"Nintendo Switch Pro"⟩]
      "nintendo").2.2 (by decide)⟩

end BTGC
